import Mathlib

/-!
Verification of the threat-assessment and deterrent state machine of the
ESP32 drone bird-deterrent controller
(`src/drone-bird-deterrent/software/esp32_main_controller.cpp`).

The C++ source is shallowly embedded below: the global variables
(`currentState`, `currentThreat`, `birdData`, `deterrentActivationTime`,
`emergencyStop`) become a `CoreState` record, each core function
(`assessThreatLevel`, `updateSystemState`, `controlDeterrents`,
`checkBirdDetection`, `setLEDStrobes`) becomes a Lean function over that
record, and one iteration of `loop` becomes `tick`.  C++ `int` is `Int`
(with truncating division `Int.tdiv`), `float` inputs are `ℚ` (their use
in the core is only order comparison against integer constants), the
floating-point sine in the strobe driver is idealised as `Real.sin`, and
`millis()` becomes an explicit `now : Nat` argument (one reading per tick;
the real calls within a tick differ by far less than any threshold used).
-/

namespace DroneDeterrent

/-- Operating states of the controller (C++ `enum SystemState`). -/
inductive SystemState
  | STATE_STANDBY
  | STATE_ALERT
  | STATE_ACTIVE
  | STATE_EMERGENCY
deriving DecidableEq

/-- Threat levels (C++ `enum ThreatLevel`). -/
inductive ThreatLevel
  | THREAT_NONE
  | THREAT_LOW
  | THREAT_MEDIUM
  | THREAT_HIGH
deriving DecidableEq

/-- Ordinal value of a threat level, following the C++ enum order
`THREAT_NONE < THREAT_LOW < THREAT_MEDIUM < THREAT_HIGH`. -/
def ThreatLevel.toNat : ThreatLevel → Nat
  | .THREAT_NONE => 0
  | .THREAT_LOW => 1
  | .THREAT_MEDIUM => 2
  | .THREAT_HIGH => 3

/-- Bird-detection record received from the Raspberry Pi
(C++ `struct BirdDetection`).  `confidence` and `species` are C++ `int`;
`distance` and `bearing` are C++ `float`, embedded as `ℚ` since the core
only compares them with integer constants. -/
structure BirdDetection where
  detected : Bool
  confidence : Int
  distance : ℚ
  bearing : ℚ
  species : Int
  timestamp : Nat
deriving DecidableEq

/-- Distance contribution of `assessThreatLevel`
(lines 322-325: `<50 → +30`, else `<100 → +20`, else `<200 → +10`). -/
def distanceFactor (d : ℚ) : Int :=
  if d < 50 then 30 else if d < 100 then 20 else if d < 200 then 10 else 0

/-- Species contribution of `assessThreatLevel`
(lines 330-333: `1` Eagle `+20`, `2` Hawk `+15`, `3` Crow `+10`, else `0`). -/
def speciesFactor (s : Int) : Int :=
  if s = 1 then 20 else if s = 2 then 15 else if s = 3 then 10 else 0

/-- Total threat score of `assessThreatLevel` (lines 319-333).
`birdData.confidence / 10` is C++ `int` division, i.e. `Int.tdiv`. -/
def threatScore (b : BirdDetection) : Int :=
  distanceFactor b.distance + Int.tdiv b.confidence 10 + speciesFactor b.species

/-- Score-to-level mapping of `assessThreatLevel` (lines 335-339). -/
def scoreToLevel (s : Int) : ThreatLevel :=
  if s ≥ 50 then .THREAT_HIGH
  else if s ≥ 30 then .THREAT_MEDIUM
  else if s ≥ 15 then .THREAT_LOW
  else .THREAT_NONE

/-- The C++ `assessThreatLevel` (lines 313-340) as a pure function from the
detection record to the threat level it stores in `currentThreat`. -/
def assessThreatLevel (b : BirdDetection) : ThreatLevel :=
  if !b.detected then .THREAT_NONE
  else scoreToLevel (threatScore b)

/-- The mutable globals of the controller that the core logic reads and
writes: `currentState`, `currentThreat`, `birdData`,
`deterrentActivationTime`, `emergencyStop` (lines 56-62, 107). -/
structure CoreState where
  currentState : SystemState
  currentThreat : ThreatLevel
  birdData : BirdDetection
  deterrentActivationTime : Nat
  emergencyStop : Bool
deriving DecidableEq

/-- The C++ `checkBirdDetection` (lines 292-311).  `msg = none` covers both
"no serial data available" and "JSON decode error": in either case the body
guarded by `if (!error)` does not run and nothing changes.  On a decoded
message the detection record is stored (with `timestamp = millis()`) and
`assessThreatLevel` recomputes `currentThreat`. -/
def checkBirdDetection (msg : Option BirdDetection) (now : Nat)
    (st : CoreState) : CoreState :=
  match msg with
  | none => st
  | some d =>
      let d' : BirdDetection := { d with timestamp := now }
      { st with birdData := d', currentThreat := assessThreatLevel d' }

/-- The C++ `updateSystemState` (lines 342-361): emergency preempts,
otherwise the state is a function of `currentThreat`, and in the
Medium/High case `deterrentActivationTime = millis()` is stamped —
note this happens on every such tick, new detection or not. -/
def updateSystemState (now : Nat) (st : CoreState) : CoreState :=
  if st.emergencyStop then { st with currentState := .STATE_EMERGENCY }
  else
    match st.currentThreat with
    | .THREAT_NONE => { st with currentState := .STATE_STANDBY }
    | .THREAT_LOW => { st with currentState := .STATE_ALERT }
    | .THREAT_MEDIUM =>
        { st with currentState := .STATE_ACTIVE,
                  deterrentActivationTime := now }
    | .THREAT_HIGH =>
        { st with currentState := .STATE_ACTIVE,
                  deterrentActivationTime := now }

/-- Actuation command issued by `controlDeterrents`: the base strobe
intensity passed to `setLEDStrobes` and the flag passed to
`setAudioDeterrent`. -/
structure DeterrentCommand where
  strobeIntensity : Int
  audioEnabled : Bool
deriving DecidableEq

/-- The per-state actuation of `controlDeterrents` (lines 363-394):
`STANDBY → (0, off)`, `ALERT → (50, off)`, `ACTIVE → (255, on)`,
`EMERGENCY → (0, off)`.  These calls happen before the ACTIVE
timeout check, so they reflect the state at entry. -/
def deterrentCommand : SystemState → DeterrentCommand
  | .STATE_STANDBY => ⟨0, false⟩
  | .STATE_ALERT => ⟨50, false⟩
  | .STATE_ACTIVE => ⟨255, true⟩
  | .STATE_EMERGENCY => ⟨0, false⟩

/-- The state change performed by `controlDeterrents` (lines 377-386): in
`STATE_ACTIVE`, if `millis() - deterrentActivationTime > 60000` the state
is demoted to `STATE_ALERT`; no other state is changed.  (`now` is never
behind the stamp in a run, so `Nat` subtraction matches the unsigned C++
subtraction.) -/
def controlDeterrents (now : Nat) (st : CoreState) : CoreState :=
  match st.currentState with
  | .STATE_ACTIVE =>
      if now - st.deterrentActivationTime > 60000 then
        { st with currentState := .STATE_ALERT }
      else st
  | _ => st

/-- One iteration of `loop` (lines 135-170) restricted to the core state:
emergency-stop pin check (lines 137-140, `pinLow = true` means the pin read
`LOW`), then `checkBirdDetection`, `updateSystemState`,
`controlDeterrents`.  Sensor refresh, power monitoring, telemetry and
health check do not touch the core state. -/
def tick (pinLow : Bool) (msg : Option BirdDetection) (now : Nat)
    (st : CoreState) : CoreState :=
  let st1 :=
    if pinLow then
      { st with emergencyStop := true, currentState := .STATE_EMERGENCY }
    else st
  let st2 := checkBirdDetection msg now st1
  let st3 := updateSystemState now st2
  controlDeterrents now st3

/-- Iterated ticks: run `tick` over a list of per-tick inputs
`(pinLow, message, now)`. -/
def runTicks (st : CoreState) : List (Bool × Option BirdDetection × Nat) → CoreState
  | [] => st
  | (pin, msg, now) :: rest => runTicks (tick pin msg now st) rest

/-- Conversion of a C++ floating value to `int`: truncation toward zero
(floor for nonnegative values, ceiling for negative ones). -/
noncomputable def floatToInt (x : ℝ) : Int :=
  if 0 ≤ x then ⌊x⌋ else ⌈x⌉

/-- Phase angle of `setLEDStrobes` (line 399):
`timeRad = (time % 1000) * 2.0 * PI / 1000.0`. -/
noncomputable def timeRad (t : Nat) : ℝ :=
  ((t % 1000 : Nat) : ℝ) * 2 * Real.pi / 1000

/-- Strobe channel output of `setLEDStrobes` (lines 401-404): channel `i`
(phase offset `i * PI/2`) is assigned
`int phase = (sin(timeRad + i*PI/2) + 1.0) * intensity / 2`, the
assignment to `int` truncating toward zero. -/
noncomputable def ledPhase (intensity : Int) (t : Nat) (i : Fin 4) : Int :=
  floatToInt ((Real.sin (timeRad t + (i : Nat) * (Real.pi / 2)) + 1) * (intensity : ℝ) / 2)

/-- Modelled from the spec: strobe channel output as the specification
writes it, `round((sin(θ + i·π/2) + 1) / 2 * intensity)` with
`θ = (t mod 1000)/1000 * 2π` — to be compared with the source-derived
`ledPhase`. -/
noncomputable def specChannelOutput (intensity : Int) (t : Nat) (i : Fin 4) : Int :=
  round ((Real.sin (timeRad t + (i : Nat) * (Real.pi / 2)) + 1) / 2 * (intensity : ℝ))

/-- Modelled from the spec: the threat score as the specification writes
it — distance band, plus `floor(confidence / 10)` (`Int.fdiv`), plus
species bonus — to be compared with the source-derived `threatScore`. -/
def specScoreFormula (b : BirdDetection) : Int :=
  (if b.distance < 50 then 30
   else if b.distance < 100 then 20
   else if b.distance < 200 then 10 else 0)
  + Int.fdiv b.confidence 10
  + (if b.species = 1 then 20
     else if b.species = 2 then 15
     else if b.species = 3 then 10 else 0)

/-- Severity rank of a species code in the order stated by the spec:
other < Crow (3) < Hawk (2) < Eagle (1). -/
def speciesSeverity (s : Int) : Nat :=
  if s = 1 then 3 else if s = 2 then 2 else if s = 3 then 1 else 0

/-! ## Helper lemmas -/

/-- A tick preserves a set emergency flag and forces state `EMERGENCY`:
the flag is only ever written `true` (line 138), and `updateSystemState`
checks it first (lines 343-346). -/
theorem tick_emergency_invariant (p : Bool) (m : Option BirdDetection)
    (n : Nat) (st : CoreState) (h : st.emergencyStop = true) :
    (tick p m n st).emergencyStop = true ∧
    (tick p m n st).currentState = .STATE_EMERGENCY := by
  cases p <;> cases m <;>
    simp [tick, checkBirdDetection, updateSystemState, controlDeterrents, h]

/-- A tick with the emergency pin reading LOW sets the emergency flag,
whatever the prior state. -/
theorem tick_pin_low_sets_flag (m : Option BirdDetection) (n : Nat)
    (st : CoreState) : (tick true m n st).emergencyStop = true := by
  cases m <;>
    simp [tick, checkBirdDetection, updateSystemState, controlDeterrents]

/-- Iterated ticks preserve the latched-emergency configuration. -/
theorem runTicks_emergency_invariant
    (inputs : List (Bool × Option BirdDetection × Nat)) (st : CoreState)
    (h1 : st.emergencyStop = true)
    (h2 : st.currentState = .STATE_EMERGENCY) :
    (runTicks st inputs).emergencyStop = true ∧
    (runTicks st inputs).currentState = .STATE_EMERGENCY := by
  induction inputs generalizing st with
  | nil => exact ⟨h1, h2⟩
  | cons x rest ih =>
      obtain ⟨p, m, n⟩ := x
      have h := tick_emergency_invariant p m n st h1
      simpa [runTicks] using ih (tick p m n st) h.1 h.2

/-- Truncating division by 10 is monotone on nonnegative integers. -/
theorem tdiv_ten_mono {a b : Int} (ha : 0 ≤ a) (hab : a ≤ b) :
    Int.tdiv a 10 ≤ Int.tdiv b 10 := by
  rw [Int.tdiv_eq_ediv ha (by norm_num),
      Int.tdiv_eq_ediv (ha.trans hab) (by norm_num)]
  omega

/-- The distance contribution grows (weakly) as distance shrinks. -/
theorem distanceFactor_antitone {d1 d2 : ℚ} (h : d2 ≤ d1) :
    distanceFactor d1 ≤ distanceFactor d2 := by
  unfold distanceFactor
  split_ifs <;> linarith

/-- The species contribution is monotone in the severity rank. -/
theorem speciesFactor_mono {s1 s2 : Int}
    (h : speciesSeverity s1 ≤ speciesSeverity s2) :
    speciesFactor s1 ≤ speciesFactor s2 := by
  unfold speciesSeverity at h
  unfold speciesFactor
  split_ifs at h ⊢ <;> omega

/-- The score-to-level mapping is monotone with respect to the enum order. -/
theorem scoreToLevel_mono {s1 s2 : Int} (h : s1 ≤ s2) :
    (scoreToLevel s1).toNat ≤ (scoreToLevel s2).toNat := by
  unfold scoreToLevel
  split_ifs <;> simp [ThreatLevel.toNat] <;> omega

/-- The strobe phase angle at `t = 125` ms (channel 0 offset) is `π/4`. -/
theorem timeRad_125 :
    timeRad 125 + ((0 : Fin 4) : Nat) * (Real.pi / 2) = Real.pi / 4 := by
  unfold timeRad
  norm_num
  ring

/-! ## Claims -/

/-- C1: the claim says that with state `Active`, a stale High threat and
more than 60000 ms elapsed since the Active entry stamp, the tick demotes
the state to `Alert`, the stale threat not resetting the timer.  On the
code this fails: `updateSystemState` re-stamps `deterrentActivationTime =
millis()` on every tick whose (possibly stale) threat is Medium/High, so
the timeout test in `controlDeterrents` sees a fresh stamp and the state
stays `Active` — here evaluated at a state holding a stale High threat,
stamp 0, at time 70000 ms with no new detection and no emergency. -/
theorem C1_stale_high_threat_never_demotes :
    (tick false none 70000
      { currentState := .STATE_ACTIVE, currentThreat := .THREAT_HIGH,
        birdData := { detected := true, confidence := 90, distance := 30,
                      bearing := 0, species := 1, timestamp := 0 },
        deterrentActivationTime := 0,
        emergencyStop := false }).currentState = .STATE_ACTIVE ∧
    (tick false none 70000
      { currentState := .STATE_ACTIVE, currentThreat := .THREAT_HIGH,
        birdData := { detected := true, confidence := 90, distance := 30,
                      bearing := 0, species := 1, timestamp := 0 },
        deterrentActivationTime := 0,
        emergencyStop := false }).deterrentActivationTime = 70000 := by
  constructor <;> rfl

/-- C2: whenever the emergency flag is asserted, `updateSystemState`
yields `Emergency` for every combination of current state, threat level,
stored detection, activation stamp and time — and the full tick also ends
in `Emergency`. -/
theorem C2_emergency_preempts_all (s : SystemState) (t : ThreatLevel)
    (b : BirdDetection) (stamp now : Nat) (p : Bool)
    (m : Option BirdDetection) :
    (updateSystemState now
      { currentState := s, currentThreat := t, birdData := b,
        deterrentActivationTime := stamp,
        emergencyStop := true }).currentState = .STATE_EMERGENCY ∧
    (tick p m now
      { currentState := s, currentThreat := t, birdData := b,
        deterrentActivationTime := stamp,
        emergencyStop := true }).currentState = .STATE_EMERGENCY := by
  refine ⟨rfl, ?_⟩
  exact (tick_emergency_invariant p m now _ rfl).2

/-- C3: every detection event with `detected = false` is assessed as
`THREAT_NONE`, whatever its confidence, distance, bearing and species. -/
theorem C3_not_detected_scores_none (c : Int) (d bear : ℚ) (sp : Int)
    (ts : Nat) :
    assessThreatLevel
      { detected := false, confidence := c, distance := d, bearing := bear,
        species := sp, timestamp := ts } = .THREAT_NONE := rfl

/-- C8: when the inbound detection message fails to decode (or none is
pending), the detection-polling step returns the state unchanged — in
particular the stored detection data, the threat level and the operating
state are untouched and the threat scorer is not consulted. -/
theorem C8_decode_failure_leaves_state (now : Nat) (st : CoreState) :
    checkBirdDetection none now st = st := rfl

/-- C10: a detected bird at distance ≥ 200 m whose species code is none of
1 (Eagle), 2 (Hawk), 3 (Crow) is assessed as `THREAT_NONE` for every
confidence in [0, 100]: all its score can reach is `100 / 10 = 10 < 15`. -/
theorem C10_far_other_species_is_none (c : Int) (d bear : ℚ) (sp : Int)
    (ts : Nat) (hd : 200 ≤ d) (hsp1 : sp ≠ 1) (hsp2 : sp ≠ 2)
    (hsp3 : sp ≠ 3) (hc0 : 0 ≤ c) (hc1 : c ≤ 100) :
    assessThreatLevel
      { detected := true, confidence := c, distance := d, bearing := bear,
        species := sp, timestamp := ts } = .THREAT_NONE := by
  have hdf : distanceFactor d = 0 := by
    unfold distanceFactor
    split_ifs <;> linarith
  have hsf : speciesFactor sp = 0 := by
    simp [speciesFactor, hsp1, hsp2, hsp3]
  have htd : Int.tdiv c 10 < 15 ∧ 0 ≤ Int.tdiv c 10 := by
    rw [Int.tdiv_eq_ediv hc0 (by norm_num)]
    omega
  unfold assessThreatLevel threatScore scoreToLevel
  simp only [Bool.not_true, hdf, hsf]
  rw [if_neg (by simp), if_neg (by omega), if_neg (by omega),
      if_neg (by omega)]

/-- C10, witness: the concrete event (confidence 100, distance 250 m,
species code 0) satisfies the hypotheses and is assessed `THREAT_NONE`. -/
theorem C10_far_other_species_is_none_witness :
    assessThreatLevel
      { detected := true, confidence := 100, distance := 250, bearing := 0,
        species := 0, timestamp := 0 } = .THREAT_NONE :=
  C10_far_other_species_is_none 100 250 0 0 0 (by norm_num) (by decide)
    (by decide) (by decide) (by decide) (by decide)

/-- C4: for every detected event with nonnegative confidence (the inbound
range is 0-100), the code's score agrees with the spec's formula —
distance band + `floor(confidence/10)` + species bonus — and the level is
the highest-first banding of the score; in particular the event
`{detected, confidence 80, distance 40, species Eagle}` scores 58 and is
assessed `THREAT_HIGH`. -/
theorem C4_score_formula_and_banding (b : BirdDetection)
    (hd : b.detected = true) (hc : 0 ≤ b.confidence) :
    threatScore b = specScoreFormula b ∧
    assessThreatLevel b =
      (if threatScore b ≥ 50 then ThreatLevel.THREAT_HIGH
       else if threatScore b ≥ 30 then ThreatLevel.THREAT_MEDIUM
       else if threatScore b ≥ 15 then ThreatLevel.THREAT_LOW
       else ThreatLevel.THREAT_NONE) ∧
    threatScore
      { detected := true, confidence := 80, distance := 40, bearing := 0,
        species := 1, timestamp := 0 } = 58 ∧
    assessThreatLevel
      { detected := true, confidence := 80, distance := 40, bearing := 0,
        species := 1, timestamp := 0 } = .THREAT_HIGH := by
  refine ⟨?_, ?_, by decide, by decide⟩
  · unfold threatScore specScoreFormula distanceFactor speciesFactor
    rw [Int.fdiv_eq_ediv _ (by norm_num),
        Int.tdiv_eq_ediv hc (by norm_num)]
  · unfold assessThreatLevel scoreToLevel
    rw [hd]
    rfl

/-- C4, witness: the theorem instantiated at the spec's own scenario
event `{detected, confidence 80, distance 40, species Eagle}`. -/
theorem C4_score_formula_and_banding_witness :
    threatScore
      { detected := true, confidence := 80, distance := 40, bearing := 0,
        species := 1, timestamp := 0 } =
    specScoreFormula
      { detected := true, confidence := 80, distance := 40, bearing := 0,
        species := 1, timestamp := 0 } ∧
    assessThreatLevel
      { detected := true, confidence := 80, distance := 40, bearing := 0,
        species := 1, timestamp := 0 } =
      (if threatScore
            { detected := true, confidence := 80, distance := 40,
              bearing := 0, species := 1, timestamp := 0 } ≥ 50 then
        ThreatLevel.THREAT_HIGH
       else if threatScore
            { detected := true, confidence := 80, distance := 40,
              bearing := 0, species := 1, timestamp := 0 } ≥ 30 then
        ThreatLevel.THREAT_MEDIUM
       else if threatScore
            { detected := true, confidence := 80, distance := 40,
              bearing := 0, species := 1, timestamp := 0 } ≥ 15 then
        ThreatLevel.THREAT_LOW
       else ThreatLevel.THREAT_NONE) ∧
    threatScore
      { detected := true, confidence := 80, distance := 40, bearing := 0,
        species := 1, timestamp := 0 } = 58 ∧
    assessThreatLevel
      { detected := true, confidence := 80, distance := 40, bearing := 0,
        species := 1, timestamp := 0 } = .THREAT_HIGH :=
  C4_score_formula_and_banding
    { detected := true, confidence := 80, distance := 40, bearing := 0,
      species := 1, timestamp := 0 } rfl (by decide)

/-- C5: for two detected events that differ in exactly one factor — the
second one closer, or more confident (within the nonnegative inbound
range), or of a species of higher severity rank (other < Crow < Hawk <
Eagle) — the second event's score, and hence its threat level in the enum
order, is at least the first one's. -/
theorem C5_score_monotonicity (b1 b2 : BirdDetection)
    (hd1 : b1.detected = true) (hd2 : b2.detected = true)
    (h : (b2.distance ≤ b1.distance ∧ b1.confidence = b2.confidence ∧
            b1.species = b2.species)
       ∨ (b1.distance = b2.distance ∧ 0 ≤ b1.confidence ∧
            b1.confidence ≤ b2.confidence ∧ b1.species = b2.species)
       ∨ (b1.distance = b2.distance ∧ b1.confidence = b2.confidence ∧
            speciesSeverity b1.species ≤ speciesSeverity b2.species)) :
    threatScore b1 ≤ threatScore b2 ∧
    (assessThreatLevel b1).toNat ≤ (assessThreatLevel b2).toNat := by
  have hscore : threatScore b1 ≤ threatScore b2 := by
    unfold threatScore
    rcases h with ⟨hdist, hconf, hspec⟩ | ⟨hdist, hc0, hconf, hspec⟩ |
      ⟨hdist, hconf, hspec⟩
    · have := distanceFactor_antitone hdist
      rw [hconf, hspec]
      omega
    · have := tdiv_ten_mono hc0 hconf
      rw [hdist, hspec]
      omega
    · have := speciesFactor_mono hspec
      rw [hdist, hconf]
      omega
  refine ⟨hscore, ?_⟩
  unfold assessThreatLevel
  rw [hd1, hd2]
  exact scoreToLevel_mono hscore

/-- C5, witness: a detected Crow at 150 m is scored and ranked no higher
than the same detection moved to 40 m. -/
theorem C5_score_monotonicity_witness :
    threatScore
      { detected := true, confidence := 50, distance := 150, bearing := 0,
        species := 3, timestamp := 0 } ≤
    threatScore
      { detected := true, confidence := 50, distance := 40, bearing := 0,
        species := 3, timestamp := 0 } ∧
    (assessThreatLevel
      { detected := true, confidence := 50, distance := 150, bearing := 0,
        species := 3, timestamp := 0 }).toNat ≤
    (assessThreatLevel
      { detected := true, confidence := 50, distance := 40, bearing := 0,
        species := 3, timestamp := 0 }).toNat :=
  C5_score_monotonicity _ _ rfl rfl (Or.inl ⟨by norm_num, rfl, rfl⟩)

/-- C6: `controlDeterrents` maps `STANDBY` to base strobe intensity 0 with
audio disabled, `ALERT` to 50 with audio disabled, `ACTIVE` to 255 with
audio enabled, and `EMERGENCY` to 0 with audio disabled; and with the
Standby base intensity every one of the four strobe channels outputs 0 at
every time. -/
theorem C6_state_to_actuation :
    deterrentCommand .STATE_STANDBY = ⟨0, false⟩ ∧
    deterrentCommand .STATE_ALERT = ⟨50, false⟩ ∧
    deterrentCommand .STATE_ACTIVE = ⟨255, true⟩ ∧
    deterrentCommand .STATE_EMERGENCY = ⟨0, false⟩ ∧
    ∀ (t : Nat) (i : Fin 4),
      ledPhase (deterrentCommand .STATE_STANDBY).strobeIntensity t i = 0 := by
  refine ⟨rfl, rfl, rfl, rfl, fun t i => ?_⟩
  simp [ledPhase, floatToInt, deterrentCommand]

/-- C9: reading the emergency pin LOW on a tick sets the software
emergency flag; and once the flag is set, every subsequent tick — whatever
the pin, messages and times — keeps the flag set and ends with the
operating state `EMERGENCY`, over any number of ticks. -/
theorem C9_emergency_latched (st : CoreState) (p : Bool)
    (m : Option BirdDetection) (n : Nat)
    (inputs : List (Bool × Option BirdDetection × Nat)) :
    (tick true m n st).emergencyStop = true ∧
    (st.emergencyStop = true →
      (tick p m n st).emergencyStop = true ∧
      (tick p m n st).currentState = .STATE_EMERGENCY ∧
      (runTicks (tick p m n st) inputs).emergencyStop = true ∧
      (runTicks (tick p m n st) inputs).currentState
        = .STATE_EMERGENCY) := by
  refine ⟨tick_pin_low_sets_flag m n st, fun h => ?_⟩
  have h1 := tick_emergency_invariant p m n st h
  have h2 := runTicks_emergency_invariant inputs _ h1.1 h1.2
  exact ⟨h1.1, h1.2, h2.1, h2.2⟩

/-- C9, witness: from a concrete flagged state (pin since deasserted, a
further deasserted tick afterwards), the flag stays set and the state
stays `EMERGENCY`. -/
theorem C9_emergency_latched_witness :
    (tick true none 7
      { currentState := .STATE_EMERGENCY, currentThreat := .THREAT_NONE,
        birdData := { detected := false, confidence := 0, distance := 0,
                      bearing := 0, species := 0, timestamp := 0 },
        deterrentActivationTime := 0,
        emergencyStop := true }).emergencyStop = true ∧
    (tick false none 7
      { currentState := .STATE_EMERGENCY, currentThreat := .THREAT_NONE,
        birdData := { detected := false, confidence := 0, distance := 0,
                      bearing := 0, species := 0, timestamp := 0 },
        deterrentActivationTime := 0,
        emergencyStop := true }).emergencyStop = true ∧
    (tick false none 7
      { currentState := .STATE_EMERGENCY, currentThreat := .THREAT_NONE,
        birdData := { detected := false, confidence := 0, distance := 0,
                      bearing := 0, species := 0, timestamp := 0 },
        deterrentActivationTime := 0,
        emergencyStop := true }).currentState = .STATE_EMERGENCY ∧
    (runTicks (tick false none 7
      { currentState := .STATE_EMERGENCY, currentThreat := .THREAT_NONE,
        birdData := { detected := false, confidence := 0, distance := 0,
                      bearing := 0, species := 0, timestamp := 0 },
        deterrentActivationTime := 0,
        emergencyStop := true }) [(false, none, 12)]).emergencyStop
      = true ∧
    (runTicks (tick false none 7
      { currentState := .STATE_EMERGENCY, currentThreat := .THREAT_NONE,
        birdData := { detected := false, confidence := 0, distance := 0,
                      bearing := 0, species := 0, timestamp := 0 },
        deterrentActivationTime := 0,
        emergencyStop := true }) [(false, none, 12)]).currentState
      = .STATE_EMERGENCY := by
  have h := C9_emergency_latched
    { currentState := .STATE_EMERGENCY, currentThreat := .THREAT_NONE,
      birdData := { detected := false, confidence := 0, distance := 0,
                    bearing := 0, species := 0, timestamp := 0 },
      deterrentActivationTime := 0, emergencyStop := true }
    false none 7 [(false, none, 12)]
  exact ⟨h.1, (h.2 rfl).1, (h.2 rfl).2.1, (h.2 rfl).2.2.1, (h.2 rfl).2.2.2⟩

/-- C7, counterexample: the claim says channel `i` outputs
`round((sin(θ + i·π/2) + 1) / 2 * intensity)`.  At `t = 125` ms with
intensity 255 the channel-0 value is `(sin(π/4) + 1)·255/2 ≈ 217.66`: the
code's `int` conversion truncates it to 217 while the claimed rounding
gives 218. -/
theorem C7_truncation_differs_from_rounding :
    ledPhase 255 125 0 = 217 ∧ specChannelOutput 255 125 0 = 218 ∧
    ledPhase 255 125 0 ≠ specChannelOutput 255 125 0 := by
  have hs2 : Real.sqrt 2 ^ 2 = 2 := Real.sq_sqrt (by norm_num)
  have hs0 : (0:ℝ) ≤ Real.sqrt 2 := Real.sqrt_nonneg 2
  have h1 : ledPhase 255 125 0 = 217 := by
    unfold ledPhase floatToInt
    rw [timeRad_125, Real.sin_pi_div_four]
    rw [if_pos (by positivity)]
    rw [Int.floor_eq_iff]
    push_cast
    constructor <;> nlinarith
  have h2 : specChannelOutput 255 125 0 = 218 := by
    unfold specChannelOutput
    rw [timeRad_125, Real.sin_pi_div_four, round_eq]
    rw [Int.floor_eq_iff]
    push_cast
    constructor <;> nlinarith
  refine ⟨h1, h2, ?_⟩
  rw [h1, h2]
  decide

/-- C7, amended: for every time, channel and base intensity in [0, 255],
the strobe channel outputs the *floor* (the truncating `int` conversion;
the operand is nonnegative) of `(sin(θ + i·π/2) + 1) / 2 * intensity`
with `θ = (t mod 1000)/1000·2π`, and that output lies within [0, 255]. -/
theorem C7_channel_formula_and_range (t : Nat) (i : Fin 4) (I : Int)
    (h0 : 0 ≤ I) (h255 : I ≤ 255) :
    ledPhase I t i
      = ⌊(Real.sin (timeRad t + (i : Nat) * (Real.pi / 2)) + 1) / 2
          * (I : ℝ)⌋ ∧
    0 ≤ ledPhase I t i ∧ ledPhase I t i ≤ 255 := by
  have hI : (0:ℝ) ≤ (I:ℝ) := by exact_mod_cast h0
  have hI255 : (I:ℝ) ≤ 255 := by exact_mod_cast h255
  have hsin1 : Real.sin (timeRad t + (i : Nat) * (Real.pi / 2)) ≤ 1 :=
    Real.sin_le_one _
  have hsinm : -1 ≤ Real.sin (timeRad t + (i : Nat) * (Real.pi / 2)) :=
    Real.neg_one_le_sin _
  have hx0 : 0 ≤
      (Real.sin (timeRad t + (i : Nat) * (Real.pi / 2)) + 1) * (I:ℝ) / 2 := by
    nlinarith
  have heq : ledPhase I t i
      = ⌊(Real.sin (timeRad t + (i : Nat) * (Real.pi / 2)) + 1)
          * (I:ℝ) / 2⌋ := by
    unfold ledPhase floatToInt
    rw [if_pos hx0]
  refine ⟨?_, ?_, ?_⟩
  · rw [heq]
    congr 1
    ring
  · rw [heq]
    exact Int.floor_nonneg.mpr hx0
  · rw [heq]
    have hle :
        (Real.sin (timeRad t + (i : Nat) * (Real.pi / 2)) + 1) * (I:ℝ) / 2
          ≤ 255 := by
      nlinarith
    have := Int.floor_le_floor hle
    simpa using this

/-- C7, witness: the amended theorem at `t = 0`, channel 0,
intensity 255. -/
theorem C7_channel_formula_and_range_witness :
    ledPhase 255 0 0
      = ⌊(Real.sin (timeRad 0 + ((0 : Fin 4) : Nat) * (Real.pi / 2)) + 1)
          / 2 * ((255 : Int) : ℝ)⌋ ∧
    0 ≤ ledPhase 255 0 0 ∧ ledPhase 255 0 0 ≤ 255 :=
  C7_channel_formula_and_range 0 0 255 (by decide) (by decide)

end DroneDeterrent
